import Mathlib

/-!
Shallow embedding of the `bmp180` Go package (michaelfranzl/bmp180): a driver
for the BMP180 temperature/pressure I2C sensor.

Conventions of the embedding:
* Go `byte`/`uint8` is `Fin 256` (8-bit wrap-around arithmetic is `Fin 256`
  arithmetic, i.e. arithmetic mod 256).
* Go `float64` is modelled as `ℚ` (exact arithmetic with the same expression
  structure as the source; every constant appearing in the source is an exact
  dyadic or small rational, so the expression trees coincide with the source
  operation-for-operation).
* The injected I2C `Device` interface is a record of two functions over an
  abstract device-state type `σ`; each call returns a result together with the
  successor device state.  The only error the transport can produce is a
  transport error (the Go code works with opaque `error` values coming from the
  bus).
* `time.Sleep` has no observable effect in the embedding and is dropped.
* The unbounded busy-bit polling loop of `readRawPressure` is modelled with an
  explicit fuel parameter: a result of `none` means the loop has not exited
  after `fuel` iterations (for any `fuel`), i.e. the source loop diverges.
-/

namespace Bmp180

/-- Go `byte` / `uint8`. -/
abbrev Byte := Fin 256

/-- Errors produced by the underlying bus transport (`error` values returned
by `ReadReg`/`WriteReg` in Go). -/
inductive BusError
  | transportError
  deriving DecidableEq, Repr

/-- The `Device` interface of the Go package, restricted to the two methods the
sensor code actually calls (`ReadReg`, `WriteReg`), over an abstract device
state `σ`.  `readReg st reg n` returns the `n` bytes read starting at register
`reg`, or a transport error, plus the successor device state. -/
structure Device (σ : Type) where
  readReg : σ → Byte → Nat → (Except BusError (List Byte)) × σ
  writeReg : σ → Byte → List Byte → (Except BusError Unit) × σ

/-- Register and command constants (the `const` block of the Go source). -/
def regControl : Byte := 0xF4

def regTempOrPressure : Byte := 0xF6

def cmdReadTemp : Byte := 0x2E

def cmdReadPressure : Byte := 0x34

def regCalibration : Byte := 0xAA

def calibrationNumWords : Nat := 22

/-- The `calibration` struct: 11 fixed-width integer fields.  Signed 16-bit
fields are `Int` values produced by `readInt16`, unsigned ones `Nat` values
produced by `readUint16`. -/
structure Calibration where
  ac1 : Int
  ac2 : Int
  ac3 : Int
  ac4 : Nat
  ac5 : Nat
  ac6 : Nat
  b1 : Int
  b2 : Int
  mb : Int
  mc : Int
  md : Int
  deriving DecidableEq, Repr

/-- The `constants` struct of floating-point coefficients derived from
calibration data. -/
structure Constants where
  c5 : ℚ
  c6 : ℚ
  mc : ℚ
  md : ℚ
  x0 : ℚ
  x1 : ℚ
  x2 : ℚ
  y0 : ℚ
  y1 : ℚ
  y2 : ℚ
  p0 : ℚ
  p1 : ℚ
  p2 : ℚ
  deriving DecidableEq, Repr

/-- `calcConstants` from `sensor/calc.go`, term for term.  `math.Pow(2, -15)`
and friends are the exact powers `(2 : ℚ) ^ (-15 : ℤ)` (these powers of two are
exact in `float64` as well). -/
def calcConstants (calib : Calibration) : Constants :=
  let c3 : ℚ := 160 * (2 : ℚ) ^ (-15 : ℤ) * (calib.ac3 : ℚ)
  let c4 : ℚ := 0.001 * (2 : ℚ) ^ (-15 : ℤ) * (calib.ac4 : ℚ)
  let b1 : ℚ := 160 * 160 * (2 : ℚ) ^ (-30 : ℤ) * (calib.b1 : ℚ)
  { c5 := (2 : ℚ) ^ (-15 : ℤ) / 160 * (calib.ac5 : ℚ)
    c6 := (calib.ac6 : ℚ)
    mc := 2048.0 / (160 * 160) * (calib.mc : ℚ)
    md := (calib.md : ℚ) / 160
    x0 := (calib.ac1 : ℚ)
    x1 := 160 * (2 : ℚ) ^ (-13 : ℤ) * (calib.ac2 : ℚ)
    x2 := 160 * 160 * (2 : ℚ) ^ (-25 : ℤ) * (calib.b2 : ℚ)
    y0 := c4 * 32768
    y1 := c4 * c3
    y2 := c4 * b1
    p0 := (3791 - 8) / 1600.0
    p1 := 1 - 7357 * (2 : ℚ) ^ (-20 : ℤ)
    p2 := 3038 * 100 * (2 : ℚ) ^ (-36 : ℤ) }

/-- `calcTempCelsius` from `sensor/calc.go`. -/
def calcTempCelsius (tu : Nat) (cnsts : Constants) : ℚ :=
  let alpha := cnsts.c5 * ((tu : ℚ) - cnsts.c6)
  let t := alpha + (cnsts.mc / (alpha + cnsts.md))
  t

/-- `calcPressurePascal` from `sensor/calc.go`. -/
def calcPressurePascal (tempCelsius : ℚ) (msb lsb xlsb : Byte)
    (cnsts : Constants) : ℚ :=
  let s := tempCelsius - 25
  let x := cnsts.x2 * s * s + cnsts.x1 * s + cnsts.x0
  let y := cnsts.y2 * s * s + cnsts.y1 * s + cnsts.y0
  let pu := (msb.val : ℚ) * 256 + (lsb.val : ℚ) + (xlsb.val : ℚ) / 256
  let z := (pu - x) / y
  let p := cnsts.p2 * z * z + cnsts.p1 * z + cnsts.p0
  p

/-- `readInt16`: big-endian decode of two bytes into a signed 16-bit value
(`binary.Read` with `binary.BigEndian` into an `int16`). -/
def readInt16 (b0 b1 : Byte) : Int :=
  let v : Nat := b0.val * 256 + b1.val
  if v < 32768 then (v : Int) else (v : Int) - 65536

/-- `readUint16`: big-endian decode of two bytes into an unsigned 16-bit
value. -/
def readUint16 (b0 b1 : Byte) : Nat :=
  b0.val * 256 + b1.val

/-- The `Sensor` struct (minus the device handle, which the embedding passes
explicitly to each operation). -/
structure Sensor where
  calib : Calibration
  cnsts : Constants
  tempCelsius : ℚ
  deriving DecidableEq, Repr

/-- The Go zero value of `calibration` (what `new(Sensor)` starts with). -/
def zeroCalibration : Calibration :=
  { ac1 := 0, ac2 := 0, ac3 := 0, ac4 := 0, ac5 := 0, ac6 := 0,
    b1 := 0, b2 := 0, mb := 0, mc := 0, md := 0 }

/-- `readCalibration`: one 22-byte block read at register `0xAA`, then fixed
big-endian decoding of the 11 calibration words.  Returns the decoded record
(the Go original writes the fields into `s.calib` in place) or the transport
error of the failed block read. -/
def readCalibration {σ : Type} (dev : Device σ) (st : σ) :
    (Except BusError Calibration) × σ :=
  match dev.readReg st regCalibration calibrationNumWords with
  | (.error e, st') => (.error e, st')
  | (.ok buf, st') =>
      (.ok { ac1 := readInt16 (buf.getD 0 0) (buf.getD 1 0)
             ac2 := readInt16 (buf.getD 2 0) (buf.getD 3 0)
             ac3 := readInt16 (buf.getD 4 0) (buf.getD 5 0)
             ac4 := readUint16 (buf.getD 6 0) (buf.getD 7 0)
             ac5 := readUint16 (buf.getD 8 0) (buf.getD 9 0)
             ac6 := readUint16 (buf.getD 10 0) (buf.getD 11 0)
             b1 := readInt16 (buf.getD 12 0) (buf.getD 13 0)
             b2 := readInt16 (buf.getD 14 0) (buf.getD 15 0)
             mb := readInt16 (buf.getD 16 0) (buf.getD 17 0)
             mc := readInt16 (buf.getD 18 0) (buf.getD 19 0)
             md := readInt16 (buf.getD 20 0) (buf.getD 21 0) }, st')

/-- `NewSensor`: allocates a zero `Sensor`, calls `readCalibration` — whose
`error` return value the source DISCARDS (`readCalibration(s)` as a bare
statement) — then derives the constants from whatever calibration the sensor
holds (the zero calibration when the read failed).  The Go signature is
`func NewSensor(device Device) *Sensor`: there is no error return at all, so
the embedding always produces a `Sensor`. -/
def NewSensor {σ : Type} (dev : Device σ) (st : σ) : Sensor × σ :=
  match readCalibration dev st with
  | (.error _, st') =>
      ({ calib := zeroCalibration, cnsts := calcConstants zeroCalibration,
         tempCelsius := 0 }, st')
  | (.ok c, st') =>
      ({ calib := c, cnsts := calcConstants c, tempCelsius := 0 }, st')

/-- `readRawTemp`: writes the temperature-start command to the control
register, sleeps, then reads two bytes from `0xF6`.  NOTE (faithful to the
source): the `err` from `WriteReg` is assigned and then immediately
overwritten by the `err` of `ReadReg` without ever being checked, so a write
failure is silently ignored (its effect on the device state remains). -/
def readRawTemp {σ : Type} (dev : Device σ) (st : σ) :
    (Except BusError Nat) × σ :=
  let (_, st1) := dev.writeReg st regControl [cmdReadTemp]
  match dev.readReg st1 regTempOrPressure 2 with
  | (.error e, st2) => (.error e, st2)
  | (.ok buf, st2) => (.ok ((buf.getD 0 0).val * 256 + (buf.getD 1 0).val), st2)

/-- `Temperature`: raw read, conversion, cache update, in the order of the
source: the cache `s.tempCelsius` is assigned only after `readRawTemp`
succeeded, and on failure the method returns before touching the sensor. -/
def Temperature {σ : Type} (dev : Device σ) (s : Sensor) (st : σ) :
    (Except BusError ℚ) × Sensor × σ :=
  match readRawTemp dev st with
  | (.error e, st') => (.error e, s, st')
  | (.ok tu, st') =>
      let t := calcTempCelsius tu s.cnsts
      (.ok t, { s with tempCelsius := t }, st')

/-- The command byte computed at the top of `readRawPressure`:
`cmd = cmdReadPressure + (oss << 6)` in Go `byte` (8-bit wrap-around)
arithmetic; `oss << 6` is multiplication by 64 mod 256. -/
def cmdByte (oss : Byte) : Byte :=
  cmdReadPressure + oss * 64

/-- The busy-bit test of the polling loop: `buf[0]&0x20 > 0`. -/
def sco (buf : List Byte) : Bool :=
  (buf.getD 0 0).val &&& 0x20 > 0

/-- The `for buf[0]&0x20 > 0 { ... }` polling loop of `readRawPressure`,
with an explicit iteration bound `fuel`.  `none` means the loop was still
running after `fuel` iterations; the source loop itself has NO bound, so
`(∀ fuel, … = none)` says the source loop never exits. -/
def pollLoop {σ : Type} (dev : Device σ) :
    Nat → List Byte → σ → Option ((Except BusError (Byte × Byte × Byte)) × σ)
  | fuel, buf, st =>
    if sco buf then
      match fuel with
      | 0 => none
      | fuel' + 1 =>
        match dev.readReg st regControl 5 with
        | (.error e, st') => some (.error e, st')
        | (.ok buf', st') => pollLoop dev fuel' buf' st'
    else
      some (.ok (buf.getD 2 0, buf.getD 3 0, buf.getD 4 0), st)

/-- `readRawPressure`: writes the command byte (checking this write's error),
sleeps the oversampling-dependent delay, block-reads registers `0xF4..0xF8`,
then polls the busy bit via `pollLoop`. -/
def readRawPressure {σ : Type} (dev : Device σ) (oss : Byte) (fuel : Nat)
    (st : σ) : Option ((Except BusError (Byte × Byte × Byte)) × σ) :=
  match dev.writeReg st regControl [cmdByte oss] with
  | (.error e, st1) => some (.error e, st1)
  | (.ok _, st1) =>
      match dev.readReg st1 regControl 5 with
      | (.error e, st2) => some (.error e, st2)
      | (.ok buf, st2) => pollLoop dev fuel buf st2

/-- `Pressure`: raw pressure read, then the pure conversion using the cached
temperature; the sensor record is returned untouched (the source method never
assigns to any field of `s`). -/
def Pressure {σ : Type} (dev : Device σ) (s : Sensor) (oss : Byte) (fuel : Nat)
    (st : σ) : Option ((Except BusError ℚ) × Sensor × σ) :=
  match readRawPressure dev oss fuel st with
  | none => none
  | some (.error e, st') => some (.error e, s, st')
  | some (.ok (msb, lsb, xlsb), st') =>
      some (.ok (calcPressurePascal s.tempCelsius msb lsb xlsb s.cnsts), s, st')

/-! ### Spec-side definitions

The following three definitions transcribe the formulas of the specification
(§4.3 and §4.5) literally, to be compared with the corresponding definitions
taken from the source (`calcConstants`, `calcTempCelsius`,
`calcPressurePascal`). -/

/-- Spec §4.5: `temperatureCelsius(rawTemp, k)`:
`alpha = k.c5 * (rawTemp - k.c6); t = alpha + k.mC/(alpha + k.mD)`. -/
def temperatureCelsiusSpec (rawTemp : Nat) (k : Constants) : ℚ :=
  let alpha := k.c5 * ((rawTemp : ℚ) - k.c6)
  alpha + k.mc / (alpha + k.md)

/-- Spec §4.5: `pressurePascal(tempCelsius, msb, lsb, xlsb, k)`. -/
def pressurePascalSpec (tempCelsius : ℚ) (msb lsb xlsb : Byte)
    (k : Constants) : ℚ :=
  let s := tempCelsius - 25
  let x := k.x2 * s * s + k.x1 * s + k.x0
  let y := k.y2 * s * s + k.y1 * s + k.y0
  let pu := (msb.val : ℚ) * 256 + (lsb.val : ℚ) + (xlsb.val : ℚ) / 256
  let z := (pu - x) / y
  k.p2 * z * z + k.p1 * z + k.p0

/-- Spec §4.3: `deriveConstants(calib)`, every formula transcribed from the
specification text. -/
def deriveConstantsSpec (calib : Calibration) : Constants :=
  let c3 : ℚ := 160 * (2 : ℚ) ^ (-15 : ℤ) * (calib.ac3 : ℚ)
  let c4 : ℚ := 0.001 * (2 : ℚ) ^ (-15 : ℤ) * (calib.ac4 : ℚ)
  let b1c : ℚ := 160 * 160 * (2 : ℚ) ^ (-30 : ℤ) * (calib.b1 : ℚ)
  { c5 := (2 : ℚ) ^ (-15 : ℤ) / 160 * (calib.ac5 : ℚ)
    c6 := (calib.ac6 : ℚ)
    mc := 2048 / (160 * 160) * (calib.mc : ℚ)
    md := (calib.md : ℚ) / 160
    x0 := (calib.ac1 : ℚ)
    x1 := 160 * (2 : ℚ) ^ (-13 : ℤ) * (calib.ac2 : ℚ)
    x2 := 160 * 160 * (2 : ℚ) ^ (-25 : ℤ) * (calib.b2 : ℚ)
    y0 := c4 * 32768
    y1 := c4 * c3
    y2 := c4 * b1c
    p0 := (3791 - 8) / 1600
    p1 := 1 - 7357 * (2 : ℚ) ^ (-20 : ℤ)
    p2 := 3038 * 100 * (2 : ℚ) ^ (-36 : ℤ) }

/-! ### Concrete test doubles

Calibration data of the repository's own stub device (`i2c_stub`/`stub`
packages) and small `Device` instances used to exercise the failure paths. -/

/-- The stub device's calibration record (bytes `0x1e 0xe7 ...` at `0xAA`). -/
def stubCalib : Calibration :=
  { ac1 := 7911, ac2 := -934, ac3 := -14306, ac4 := 31567, ac5 := 25671,
    ac6 := 18974, b1 := 5498, b2 := 46, mb := -32768, mc := -11075, md := 2432 }

/-- A sensor holding the stub calibration, as produced by a successful
`NewSensor` against the stub device. -/
def stubSensor : Sensor :=
  { calib := stubCalib, cnsts := calcConstants stubCalib, tempCelsius := 0 }

/-- A device whose every read and write fails with a transport error. -/
def failDev : Device Unit :=
  { readReg := fun _ _ _ => (.error .transportError, ())
    writeReg := fun _ _ _ => (.error .transportError, ()) }

/-- A device that accepts every write and always answers a block read with a
control-register byte whose `0x20` (conversion-in-progress, SCO) bit is set:
the conversion never completes. -/
def alwaysBusyDev : Device Unit :=
  { readReg := fun _ _ _ => (.ok [0x20, 0, 0, 0, 0], ())
    writeReg := fun _ _ _ => (.ok (), ()) }

/-- A device whose writes all fail but whose reads succeed, answering with the
stub's raw-temperature bytes `0x69 0xEC`. -/
def writeFailTempDev : Device Unit :=
  { readReg := fun _ _ _ => (.ok [0x69, 0xEC], ())
    writeReg := fun _ _ _ => (.error .transportError, ()) }

/-! ### Claim theorems -/

/-- C4: for every constants record `k` and every raw temperature value
`rawTemp`, the temperature conversion function returns exactly
`alpha + k.mC/(alpha + k.mD)` with `alpha = k.c5 * (rawTemp - k.c6)` — the
source expression tree coincides operation-for-operation with the
specification's formula (so the agreement holds under any arithmetic
interpretation of the operations, double-precision floating point included;
the statement quantifies over all `Nat` raw values, which subsumes all 16-bit
ones). -/
theorem calcTempCelsius_matches_spec (rawTemp : Nat) (k : Constants) :
    calcTempCelsius rawTemp k = temperatureCelsiusSpec rawTemp k := rfl

/-- C5: for every constants record `k`, every compensating temperature and
every byte triple `(msb, lsb, xlsb)`, the pressure conversion function
returns exactly the quadratic `k.p2*z*z + k.p1*z + k.p0` over
`z = (pu - x)/y` with `s`, `x`, `y`, `pu` as the specification states them —
again operation-for-operation equal to the source. -/
theorem calcPressurePascal_matches_spec (tempCelsius : ℚ) (msb lsb xlsb : Byte)
    (k : Constants) :
    calcPressurePascal tempCelsius msb lsb xlsb k =
      pressurePascalSpec tempCelsius msb lsb xlsb k := rfl

/-- C6: for every calibration record, the constants derivation computes
exactly the fixed formulas of spec §4.3; being a function of the calibration
alone, no field depends on any measurement. -/
theorem calcConstants_matches_spec (calib : Calibration) :
    calcConstants calib = deriveConstantsSpec calib := by
  simp only [calcConstants, deriveConstantsSpec, Constants.mk.injEq]
  norm_num

/-- C8: `Temperature` never partially mutates the sensor: when the raw read
fails the sensor (in particular its cached `tempCelsius`) is returned
unchanged, and on success the one and only change is that `tempCelsius` is set
to the value the call returns. -/
theorem temperature_cache_update {σ : Type} (dev : Device σ) (s : Sensor)
    (st : σ) :
    (Temperature dev s st).2.1 =
      match (Temperature dev s st).1 with
      | .error _ => s
      | .ok t => { s with tempCelsius := t } := by
  unfold Temperature
  rcases h : readRawTemp dev st with ⟨e | tu, st'⟩ <;> simp [h]

set_option maxRecDepth 8192

/-- C9: for every oversampling setting below 4, the command byte the code
computes by 8-bit addition `0x34 + (oss << 6)` equals the bitwise-OR form
`0x34 ||| (oss << 6)` the spec prescribes, and takes the values
`0x34, 0x74, 0xB4, 0xF4`. -/
theorem cmdByte_eq_or_form :
    ∀ oss : Byte, oss.val < 4 →
      (cmdByte oss).val = 0x34 ||| (oss.val * 64) ∧
      cmdByte oss = [(0x34 : Byte), 0x74, 0xB4, 0xF4].getD oss.val 0 := by
  decide

/-- Witness for C9's theorem at the concrete oversampling setting 3. -/
theorem cmdByte_eq_or_form_witness :
    (cmdByte 3).val = 0x34 ||| ((3 : Byte).val * 64) ∧
      cmdByte 3 = [(0x34 : Byte), 0x74, 0xB4, 0xF4].getD (3 : Byte).val 0 :=
  cmdByte_eq_or_form 3 (by decide)

/-- C10: whenever `Pressure` returns (with a value or with an error), the
sensor record it hands back is exactly the input sensor: calibration, derived
constants and the cached temperature are all untouched.  (Together with the
theorem for C8, which shows `Temperature` writes only `tempCelsius`, the
cached temperature is written by `Temperature` alone.) -/
theorem pressure_preserves_sensor {σ : Type} (dev : Device σ) (s : Sensor)
    (oss : Byte) (fuel : Nat) (st : σ) :
    (Pressure dev s oss fuel st).elim True (fun out => out.2.1 = s) := by
  unfold Pressure
  rcases h : readRawPressure dev oss fuel st with _ | ⟨e | ⟨msb, lsb, xlsb⟩, st'⟩ <;>
    simp

/-- Against the always-busy device the polling loop never exits, for any
iteration budget. -/
theorem pollLoop_alwaysBusy (fuel : Nat) :
    pollLoop alwaysBusyDev fuel [0x20, 0, 0, 0, 0] () = none := by
  induction fuel with
  | zero => rfl
  | succ n ih =>
      rw [pollLoop]
      simpa [sco, alwaysBusyDev] using ih

/-- C1: the code does NOT satisfy the claim.  Against a device that never
clears the conversion-in-progress bit `0x20` of the control-register byte
(every block read succeeding with the bit set), `readRawPressure` fails to
terminate within ANY iteration budget, for every oversampling setting: the
busy-bit polling loop is unbounded and no `ProtocolTimeout` error exists in
the code at all (`BusError` has only the transport constructor). -/
theorem readRawPressure_alwaysBusy_diverges (oss : Byte) (fuel : Nat) :
    readRawPressure alwaysBusyDev oss fuel () = none := by
  show pollLoop alwaysBusyDev fuel [0x20, 0, 0, 0, 0] () = none
  exact pollLoop_alwaysBusy fuel

/-- C2: the code does NOT satisfy the claim.  Against a device whose reads
all fail, the calibration loader `readCalibration` does return the transport
error (this half matches the spec), but `NewSensor` discards that error —
the Go call `readCalibration(s)` ignores the returned `error`, and
`NewSensor`'s signature has no error result — and still hands back a fully
constructed `Sensor` built from the zero calibration. -/
theorem newSensor_ignores_calibration_failure :
    readCalibration failDev () = (.error .transportError, ()) ∧
    NewSensor failDev () =
      ({ calib := zeroCalibration, cnsts := calcConstants zeroCalibration,
         tempCelsius := 0 }, ()) :=
  ⟨rfl, rfl⟩

/-- C3: the code does NOT satisfy the claim for step 1.  In `readRawTemp` the
`err` of the `WriteReg` of the temperature-start command is assigned and then
overwritten by the `err` of the subsequent `ReadReg`, never checked: against
a device whose writes fail but whose reads deliver bytes `0x69 0xEC`,
`Temperature` returns the decoded value `calcTempCelsius 27116 …` with no
error at all.  A failure at step 3 (the data read) does surface, as the
second conjunct shows. -/
theorem temperature_swallows_write_failure :
    (Temperature writeFailTempDev stubSensor ()).1 =
      .ok (calcTempCelsius 27116 (calcConstants stubCalib)) ∧
    (Temperature failDev stubSensor ()).1 =
      .error .transportError :=
  ⟨rfl, rfl⟩

/-- C7: with the stub calibration (`ac1 = 7911, …, md = 2432`) and the raw
temperature value decoded big-endian from the bytes `0x69 0xEC` (27116), the
composition of constants derivation and temperature conversion yields a value
that rounds to `23.776` °C at 3 decimal places.  (The embedding evaluates the
formulas in exact rational arithmetic; the double-precision result differs
from the exact one by far less than the `4·10⁻⁴ °C` distance to the nearest
rounding boundary.) -/
theorem temperature_fixture_rounds_to_23776 :
    round (1000 * calcTempCelsius (readUint16 0x69 0xEC) (calcConstants stubCalib))
      = 23776 := by
  have htu : readUint16 0x69 0xEC = 27116 := rfl
  have ht : calcTempCelsius 27116 (calcConstants stubCalib) =
      8997252286835489 / 378411493621760 := by
    norm_num [calcTempCelsius, calcConstants, stubCalib]
  rw [htu, ht, round_eq]
  rw [show ((1000 : ℚ) * (8997252286835489 / 378411493621760) + 1 / 2)
        = 224936037314557497 / 9460287340544 by norm_num]
  rw [Int.floor_eq_iff]
  norm_num

end Bmp180
